import Mathlib

/-!
Verification development for the hypercraft guest-execution core:
the virtio block-device request interpreter (`src/device/virtio/blk.rs`),
the emulated-MMIO dispatch registry (`src/device/emu.rs`) and the
vCPU creation path (`src/arch/riscv/vcpu.rs`), shallowly embedded in Lean.

Machine integers are modelled as `Nat` with explicit reduction modulo
`2^64` (usize) or `2^32` (u32) at the operations where the Rust source
performs (release-mode wrapping) arithmetic.
-/

/-- The usize modulus, 2^64. -/
def U64SZ : Nat := 18446744073709551616

/-- The u32 modulus, 2^32. -/
def U32SZ : Nat := 4294967296

/-- usize addition (wrapping, as in release-mode Rust). -/
def u64add (a b : Nat) : Nat := (a + b) % U64SZ

/-- usize subtraction (wrapping, as in release-mode Rust); both arguments below 2^64. -/
def u64sub (a b : Nat) : Nat := (a + U64SZ - b % U64SZ) % U64SZ

/-- usize multiplication (wrapping, as in release-mode Rust). -/
def u64mul (a b : Nat) : Nat := (a * b) % U64SZ

/-- u32 addition (wrapping, as in release-mode Rust). -/
def u32add (a b : Nat) : Nat := (a + b) % U32SZ

/-! ## Byte memory model

Host-accessible memory is a byte map `Nat → Nat`; stored values are reduced
modulo 256 on write and on typed reads. -/

/-- Read one byte. -/
def readByte (m : Nat → Nat) (a : Nat) : Nat := m a % 256

/-- Little-endian u32 load, as done by dereferencing a `*const u32`. -/
def readU32 (m : Nat → Nat) (a : Nat) : Nat :=
  readByte m a + 256 * readByte m (a + 1) + 65536 * readByte m (a + 2) +
    16777216 * readByte m (a + 3)

/-- Little-endian u64 load, as done by dereferencing a `*const u64`/`usize`. -/
def readU64 (m : Nat → Nat) (a : Nat) : Nat :=
  readU32 m a + 4294967296 * readU32 m (a + 4)

/-- Store one byte. -/
def writeByte (m : Nat → Nat) (a v : Nat) : Nat → Nat :=
  fun x => if x = a then v % 256 else m x

/-- Model of `core::ptr::copy_nonoverlapping`: copy `cnt` bytes from `src` at `srcOff`
into `dst` at `dstOff` (the source guarantees the two regions are disjoint). -/
def copyBytes (src : Nat → Nat) (srcOff : Nat) (dst : Nat → Nat) (dstOff cnt : Nat) :
    Nat → Nat :=
  fun x => if dstOff ≤ x ∧ x < dstOff + cnt then src (srcOff + (x - dstOff)) else dst x

/-! ## Virtio block device constants (`src/device/virtio/blk.rs`) -/

def SECTOR_BSIZE : Nat := 512

def SECTORS_NUM : Nat := 32

def VIRTIO_BLK_T_IN : Nat := 0

def VIRTIO_BLK_T_OUT : Nat := 1

def VIRTIO_BLK_T_FLUSH : Nat := 4

def VIRTIO_BLK_T_GET_ID : Nat := 8

def VIRTIO_BLK_S_OK : Nat := 0

def VIRTIO_BLK_S_UNSUPP : Nat := 2

/-- Modelled from the spec: `VIRTQ_DESC_F_NEXT` is declared in `crate::device`,
which is not under src/; per the spec's queue contract ("chain-link traversal via
the descriptor's next flag") it is the standard virtio NEXT flag, bit 0. -/
def VIRTQ_DESC_F_NEXT : Nat := 1

/-- Modelled from the spec: `VIRTQ_DESC_F_WRITE` is declared in `crate::device`,
which is not under src/; per the spec's queue contract ("whether the descriptor is
device-writable") it is the standard virtio WRITE flag, bit 1 (the source shifts it
right by one to compare against a request type). -/
def VIRTQ_DESC_F_WRITE : Nat := 2

/-- One I/O-vector entry `{physical address, length}` (`BlkIov` in the source). -/
structure BlkIov where
  data_bg : Nat
  len : Nat
deriving DecidableEq, Repr

/-- Per-request state built while draining one descriptor chain
(`VirtioBlkReqNode` in the source). -/
structure VirtioBlkReqNode where
  req_type : Nat
  reserved : Nat
  sector : Nat
  desc_chain_head_idx : Nat
  iov : List BlkIov
  iov_sum_up : Nat
  iov_total : Nat
deriving DecidableEq, Repr

/-- Model of `VirtioBlkReqNode::default()`. -/
def VirtioBlkReqNode.default : VirtioBlkReqNode :=
  { req_type := 0, reserved := 0, sector := 0, desc_chain_head_idx := 0,
    iov := [], iov_sum_up := 0, iov_total := 0 }

/-! ## Virtq model

Modelled from the spec: the split-virtqueue storage (`queue.rs`) is not under
src/; the spec's §4.3 queue contract is embedded as data. A descriptor is its
guest-physical address, length, flag bits and next-link; the backlog of
not-yet-consumed chain-head indices that `pop_avail_desc_idx(avail_idx)` will
return (bounded by the `avail_idx` snapshot) is a list; `update_used_ring`'s
success/failure ("returns failure if the used ring is full or inconsistent") is
an oracle indexed by the number of completions already posted. -/

structure VirtqDesc where
  addr : Nat
  len : Nat
  flags : Nat
  next : Nat
deriving DecidableEq, Repr

structure Virtq where
  ready : Nat
  avail : List Nat
  desc : Nat → VirtqDesc
  updOk : Nat → Bool

/-- Mutable state threaded through one notification: host byte memory (guest
buffers, request headers, status bytes), the `BLOCK_DEVICE` backing array,
the used-ring completions posted so far as `(len, chain_head_idx)` pairs, and
the notification-suppression flag. -/
structure SysState where
  mem : Nat → Nat
  store : Nat → Nat
  used : List (Nat × Nat)
  notifyEnabled : Bool

/-! ## FakeBlkDevice backing store -/

/-- Model of `FakeBlkDevice::blk_read(offset, count, buf)`: bounds check (note the
source's `>=`), then copy `count` bytes from the backing store at `offset`
into memory at `buf`. -/
def blk_read (offset count buf : Nat) (s : SysState) : Bool × SysState :=
  if SECTOR_BSIZE * SECTORS_NUM ≤ u64add offset count then (false, s)
  else (true, { s with mem := copyBytes s.store offset s.mem buf count })

/-- Model of `FakeBlkDevice::blk_write(offset, count, buf)`: bounds check (note the
source's `>=`), then copy `count` bytes from memory at `buf` into the backing
store at `offset`. -/
def blk_write (offset count buf : Nat) (s : SysState) : Bool × SysState :=
  if SECTOR_BSIZE * SECTORS_NUM ≤ u64add offset count then (false, s)
  else (true, { s with store := copyBytes s.mem buf s.store offset count })

/-! ## Request execution phase (`process_blk_requests`) -/

/-- Outcome of a function in the notify-handler call chain: a boolean return
with the final state, the panic branch (`fatal`), or fuel exhaustion standing
in for the source's potential non-termination on a cyclic descriptor chain
(`spin`). -/
inductive HandlerOut where
  | ret (b : Bool) (s : SysState)
  | fatal (s : SysState)
  | spin
  deriving Inhabited

/-- Model of `vq.update_used_ring(len_written, chain_head_idx)`: posts a completion
entry; success is decided by the queue's oracle at the current number of
posted completions. -/
def update_used_ring (vq : Virtq) (lenWritten headIdx : Nat) (s : SysState) :
    Bool × SysState :=
  if vq.updOk s.used.length then
    (true, { s with used := s.used ++ [(lenWritten, headIdx)] })
  else (false, s)

/-- The `for aiov in req.iov` loop of `process_blk_requests`: issue one
backing-store call per I/O-vector entry, ignoring each call's boolean result;
`write_len` (u32) accumulates entry lengths for IN requests only, and `offset`
advances by each entry's length. -/
def blk_io_loop (reqType : Nat) (iov : List BlkIov) (offset writeLen : Nat)
    (s : SysState) : Nat × SysState :=
  match iov with
  | [] => (writeLen, s)
  | aiov :: rest =>
    if reqType = VIRTIO_BLK_T_IN then
      let r := blk_read offset aiov.len aiov.data_bg s
      blk_io_loop reqType rest (u64add offset aiov.len) (u32add writeLen aiov.len) r.2
    else
      let r := blk_write offset aiov.len aiov.data_bg s
      blk_io_loop reqType rest (u64add offset aiov.len) writeLen r.2

/-- The `match req.req_type` body of `process_blk_requests` for one request:
yields `(write_len, state)` or `none` for the panic branch (the catch-all arm,
and the out-of-bounds `req.iov[0]` access of a GET_ID request with no data
descriptor). `idBytes` is the 20 bytes the source copies from the address of
the static identifier string "virtio-blk-0". -/
def exec_blk_req (idBytes : Nat → Nat) (req : VirtioBlkReqNode) (s : SysState) :
    Option (Nat × SysState) :=
  if req.req_type = VIRTIO_BLK_T_IN ∨ req.req_type = VIRTIO_BLK_T_OUT then
    some (blk_io_loop req.req_type req.iov (u64mul req.sector SECTOR_BSIZE) 0 s)
  else if req.req_type = VIRTIO_BLK_T_FLUSH then
    some (0, s)
  else if req.req_type = VIRTIO_BLK_T_GET_ID then
    match req.iov with
    | [] => none
    | iov0 :: _ => some (0, { s with mem := copyBytes idBytes 0 s.mem iov0.data_bg 20 })
  else none

/-- Model of `process_blk_requests(req_list, &vq)`: execute each queued request, then
post its completion via `update_used_ring(write_len, desc_chain_head_idx)`;
a failed update returns `false` at once, leaving the remaining requests
unexecuted. -/
def process_blk_requests (idBytes : Nat → Nat) (vq : Virtq)
    (reqList : List VirtioBlkReqNode) (s : SysState) : HandlerOut :=
  match reqList with
  | [] => .ret true s
  | req :: rest =>
    match exec_blk_req idBytes req s with
    | none => .fatal s
    | some (writeLen, s1) =>
      match update_used_ring vq writeLen req.desc_chain_head_idx s1 with
      | (true, s2) => process_blk_requests idBytes vq rest s2
      | (false, s2) => .ret false s2

/-! ## Chain parsing (`virtio_blk_notify_handler`'s inner loop) -/

/-- Outcome of walking one descriptor chain: the parsed request node with the
status byte written (`done`), a `return false` of the handler (`abort`), or
fuel exhaustion standing in for the source's infinite loop on a cyclic chain
(`spin`). -/
inductive WalkOut where
  | done (node : VirtioBlkReqNode) (s : SysState)
  | abort (s : SysState)
  | spin

/-- The `loop` of `virtio_blk_notify_handler` that walks one descriptor chain
in link order: a head descriptor must not be device-writable and supplies
`{req_type, sector}` read through `vm_ipa2pa`; an interior descriptor's
writable bit, shifted down by one, must differ from the request type and
contributes one I/O-vector entry; the tail (no NEXT flag) must be writable and
receives the one-byte status (UNSUPP for a type neither IN, OUT nor GET_ID,
OK otherwise). `ipa2pa` is the external translation function, 0 its failure
sentinel. -/
def walk_chain (ipa2pa : Nat → Nat) (vq : Virtq) :
    Nat → Nat → Bool → VirtioBlkReqNode → SysState → WalkOut
  | 0, _, _, _, _ => .spin
  | fuel + 1, idx, head, node, s =>
    let d := vq.desc idx
    if d.flags &&& VIRTQ_DESC_F_NEXT ≠ 0 then
      if head then
        if d.flags &&& VIRTQ_DESC_F_WRITE ≠ 0 then .abort s
        else if ipa2pa d.addr = 0 then .abort s
        else
          walk_chain ipa2pa vq fuel d.next false
            { node with req_type := readU32 s.mem (ipa2pa d.addr),
                        sector := readU64 s.mem (ipa2pa d.addr + 8) } s
      else
        if (d.flags &&& VIRTQ_DESC_F_WRITE) >>> 1 = node.req_type then .abort s
        else if ipa2pa d.addr = 0 then .abort s
        else
          walk_chain ipa2pa vq fuel d.next false
            { node with iov_sum_up := u64add node.iov_sum_up d.len,
                        iov := node.iov ++ [⟨ipa2pa d.addr, d.len⟩] } s
    else
      if d.flags &&& VIRTQ_DESC_F_WRITE = 0 then .abort s
      else if ipa2pa d.addr = 0 then .abort s
      else
        .done node
          { s with
            mem := writeByte s.mem (ipa2pa d.addr)
              (if 1 < node.req_type ∧ node.req_type ≠ VIRTIO_BLK_T_GET_ID then
                VIRTIO_BLK_S_UNSUPP
              else VIRTIO_BLK_S_OK) }

/-- The `disable_notify` / `check_avail_idx` / `enable_notify` bracket at the
top of the drain loop: notifications are disabled, then re-enabled when the
popped head was the last one of the snapshot backlog (`lastOne`). -/
def notify_bracket (s : SysState) (lastOne : Bool) : SysState :=
  let s1 : SysState := { s with notifyEnabled := false }
  if lastOne then { s1 with notifyEnabled := true } else s1

/-- The `while next_desc_idx_opt.is_some()` loop of `virtio_blk_notify_handler`:
pop each chain head from the backlog, bracket the drain with
`disable_notify`/`enable_notify` (re-enabled once `check_avail_idx` sees the
backlog caught up to the snapshot), walk the chain, queue the parsed node
(with `iov_total` set from `iov_sum_up`), and finally run
`process_blk_requests` on the queued list. -/
def drain_loop (ipa2pa idBytes : Nat → Nat) (vq : Virtq) (chainFuel : Nat) :
    List Nat → SysState → List VirtioBlkReqNode → HandlerOut
  | [], s, reqList => process_blk_requests idBytes vq reqList s
  | idx :: rest, s, reqList =>
    match walk_chain ipa2pa vq chainFuel idx true
        { VirtioBlkReqNode.default with desc_chain_head_idx := idx }
        (notify_bracket s rest.isEmpty) with
    | .spin => .spin
    | .abort s' => .ret false s'
    | .done node s' =>
      drain_loop ipa2pa idBytes vq chainFuel rest s'
        (reqList ++ [{ node with iov_total := node.iov_sum_up }])

/-- Model of `virtio_blk_notify_handler(vq, blk)`: snapshot `avail_idx` (a pure read),
fail if the queue is not ready, otherwise drain the backlog and execute the
batch. The `blk` argument is only used for a side-effect-free `blk.dev()`
read and is not modelled. -/
def virtio_blk_notify_handler (ipa2pa idBytes : Nat → Nat) (vq : Virtq)
    (chainFuel : Nat) (s : SysState) : HandlerOut :=
  if vq.ready = 0 then .ret false s
  else drain_loop ipa2pa idBytes vq chainFuel vq.avail s []

/-! ## Observation helpers on handler outcomes -/

/-- The boolean the call returned, if it returned. -/
def HandlerOut.retb : HandlerOut → Option Bool
  | .ret b _ => some b
  | _ => none

/-- The used-ring completions in the final state (empty for `spin`). -/
def HandlerOut.usedOf : HandlerOut → List (Nat × Nat)
  | .ret _ s => s.used
  | .fatal s => s.used
  | .spin => []

/-- One byte of final host memory (0 for `spin`). -/
def HandlerOut.memAt : HandlerOut → Nat → Nat
  | .ret _ s, a => s.mem a
  | .fatal s, a => s.mem a
  | .spin, _ => 0

/-- One byte of the final backing store (0 for `spin`). -/
def HandlerOut.storeAt : HandlerOut → Nat → Nat
  | .ret _ s, a => s.store a
  | .fatal s, a => s.store a
  | .spin, _ => 0

/-- Whether the call reached a panic. -/
def HandlerOut.isFatal : HandlerOut → Bool
  | .fatal _ => true
  | _ => false

/-! ## Emulated-device registry (`src/device/emu.rs`) -/

def EMU_DEV_NUM_MAX : Nat := 32

inductive EmuDeviceType where
  | EmuDeviceTVirtioBlk
  | EmuDeviceTVirtioNet
deriving DecidableEq, Repr

/-- One trapped memory access (`EmuContext` in the source). -/
structure EmuContext where
  address : Nat
  width : Nat
  write : Bool
  sign_ext : Bool
  reg : Nat
  reg_width : Nat

/-- One registry entry (`EmuDevEntry` in the source); the handler is the
`EmuDevHandler` function pointer `fn(usize, &EmuContext) -> bool`. -/
structure EmuDevEntry where
  emu_type : EmuDeviceType
  id : Nat
  ipa : Nat
  size : Nat
  handler : Nat → EmuContext → Bool

/-- Modelled from the spec: `crate::arch::in_range` is not under src/. Per the
spec's registry contract the checks decide containment of an address in
`[base, base+size)`, and the source passes `size - 1` as the third argument,
so `in_range a base len` decides `base ≤ a ≤ base + len` with the addition
wrapping as usize arithmetic. -/
def in_range (a base len : Nat) : Bool :=
  decide (base ≤ a ∧ a ≤ u64add base len)

/-- Model of `emu_handler(emu_ctx)`: linear scan of the registered entries; the first
entry whose range (checked via `in_range(ipa, entry.ipa, entry.size - 1)`)
contains the faulting address has its handler invoked with the entry's device
id and the context, and that result is returned; otherwise the miss is logged
and `false` returned. The global `EMU_DEVS_LIST` is passed explicitly. -/
def emu_handler (emu_ctx : EmuContext) : List EmuDevEntry → Bool
  | [] => false
  | d :: rest =>
    if in_range emu_ctx.address d.ipa (u64sub d.size 1) then d.handler d.id emu_ctx
    else emu_handler emu_ctx rest

/-- Model of `emu_register_dev(emu_type, dev_id, address, size, handler)`: panics
(`none`) when the table already holds `EMU_DEV_NUM_MAX` entries, or when the
new range overlaps an existing one in either direction (both directions
checked via `in_range` with `size - 1`); otherwise appends the new entry. -/
def emu_register_dev (emu_type : EmuDeviceType) (dev_id address size : Nat)
    (handler : Nat → EmuContext → Bool) (devs : List EmuDevEntry) :
    Option (List EmuDevEntry) :=
  if EMU_DEV_NUM_MAX ≤ devs.length then none
  else if devs.any (fun d =>
      in_range address d.ipa (u64sub d.size 1) || in_range d.ipa address (u64sub size 1)) then
    none
  else some (devs ++ [⟨emu_type, dev_id, address, size, handler⟩])

/-- A trivial registered handler used by concrete registry scenarios. -/
def obedient_handler : Nat → EmuContext → Bool := fun _ _ => false

/-- A handler that reports the device id it was invoked with. -/
def probing_handler : Nat → EmuContext → Bool := fun i _ => decide (i = 7)

/-- Register `n` pairwise non-overlapping 4 KiB ranges (`[i*4096, i*4096+4096)`
for `i < n`) one after another, propagating a panic. -/
def regChain : Nat → Option (List EmuDevEntry)
  | 0 => some []
  | n + 1 =>
    (regChain n).bind
      (emu_register_dev EmuDeviceType.EmuDeviceTVirtioBlk n (n * 4096) 4096 obedient_handler)

/-! ## vCPU creation (`src/arch/riscv/vcpu.rs`) -/

/-- Modelled from the spec: `GeneralPurposeRegisters` lives in `regs.rs`, which
is not under src/; the spec's Register/State Layout stores the addressable
general-purpose registers as an array of 64-bit slots, modelled as a map from
register index to value. -/
def GeneralPurposeRegisters : Type := Nat → Nat

/-- The all-zero register file. -/
def GeneralPurposeRegisters.default : GeneralPurposeRegisters := fun _ => 0

/-- Hypervisor-side state of the Register/State Layout. -/
structure HypervisorCpuState where
  gprs : GeneralPurposeRegisters
  sstatus : Nat
  hstatus : Nat
  scounteren : Nat
  stvec : Nat
  sscratch : Nat

def HypervisorCpuState.default : HypervisorCpuState :=
  ⟨GeneralPurposeRegisters.default, 0, 0, 0, 0, 0⟩

/-- Guest-side state of the Register/State Layout. -/
structure GuestCpuState where
  gprs : GeneralPurposeRegisters
  sstatus : Nat
  hstatus : Nat
  scounteren : Nat
  sepc : Nat

def GuestCpuState.default : GuestCpuState :=
  ⟨GeneralPurposeRegisters.default, 0, 0, 0, 0⟩

/-- VS-level CSRs, saved/restored on vCPU activation. -/
structure GuestVsCsrs where
  htimedelta : Nat
  vsstatus : Nat
  vsie : Nat
  vstvec : Nat
  vsscratch : Nat
  vsepc : Nat
  vscause : Nat
  vstval : Nat
  vsatp : Nat
  vstimecmp : Nat
deriving DecidableEq, Repr

def GuestVsCsrs.default : GuestVsCsrs := ⟨0, 0, 0, 0, 0, 0, 0, 0, 0, 0⟩

/-- Virtualized HS-level CSRs. -/
structure GuestVirtualHsCsrs where
  hie : Nat
  hgeie : Nat
  hgatp : Nat
deriving DecidableEq, Repr

def GuestVirtualHsCsrs.default : GuestVirtualHsCsrs := ⟨0, 0, 0⟩

/-- Trap-cause CSRs written on each guest exit. -/
structure VmCpuTrapState where
  scause : Nat
  stval : Nat
  htval : Nat
  htinst : Nat
deriving DecidableEq, Repr

def VmCpuTrapState.default : VmCpuTrapState := ⟨0, 0, 0, 0⟩

/-- The full Register/State Layout (`VmCpuRegisters` in the source). -/
structure VmCpuRegisters where
  hyp_regs : HypervisorCpuState
  guest_regs : GuestCpuState
  vs_csrs : GuestVsCsrs
  virtual_hs_csrs : GuestVirtualHsCsrs
  trap_csrs : VmCpuTrapState

/-- Model of `VmCpuRegisters::default()`: every field zero. -/
def VmCpuRegisters.default : VmCpuRegisters :=
  ⟨HypervisorCpuState.default, GuestCpuState.default, GuestVsCsrs.default,
   GuestVirtualHsCsrs.default, VmCpuTrapState.default⟩

/-- A vCPU: its Register/State Layout and the (abstract) owning-guest handle. -/
structure VCpu where
  regs : VmCpuRegisters
  guest : Nat

/-- The hstatus SPV ("supervisor previous virtualization mode") bit, bit 7. -/
def HSTATUS_SPV_BIT : Nat := 7

/-- The sstatus SPP ("supervisor previous privilege") bit, bit 8; 1 denotes
supervisor level. -/
def SSTATUS_SPP_BIT : Nat := 8

/-- Model of `VCpu::create(_entry, _sp, _hgatp, _kernel_sp, _trap_handler, guest)`:
zero-initializes the Register/State Layout, then stores into the guest-side
status slots the values read from the hardware `hstatus`/`sstatus` CSRs
(passed here as `hw_hstatus`/`hw_sstatus`, since the reads depend on the
machine state at the call) with the SPV bit set, respectively the SPP field
set to supervisor. The five leading source arguments are unused. -/
def VCpu.create (hw_hstatus hw_sstatus : Nat)
    (_entry _sp _hgatp _kernel_sp _trap_handler guest : Nat) : VCpu :=
  let regs := VmCpuRegisters.default
  let regs :=
    { regs with guest_regs :=
        { regs.guest_regs with hstatus := hw_hstatus ||| (1 <<< HSTATUS_SPV_BIT) } }
  let regs :=
    { regs with guest_regs :=
        { regs.guest_regs with sstatus := hw_sstatus ||| (1 <<< SSTATUS_SPP_BIT) } }
  { regs := regs, guest := guest }

/-! ## Concrete scenarios -/

/-- Identity guest-physical-to-host translation (never the failure sentinel
for the nonzero addresses used below). -/
def plain_translate : Nat → Nat := fun a => a

/-- All-zero byte source (used for the identifier-string bytes when GET_ID is
not exercised). -/
def zeroBytes : Nat → Nat := fun _ => 0

/-- Empty initial state: zero memory, zero backing store, no completions. -/
def s0 : SysState := ⟨fun _ => 0, fun _ => 0, [], true⟩

/-- A queue whose single chain is one descriptor that is device-writable and
has no NEXT link (a writable head with no interior descriptors). -/
def vq_single_writable : Virtq :=
  ⟨1, [0], fun _ => ⟨4, 0, 2, 0⟩, fun _ => true⟩

/-- The same queue, not ready. -/
def vq_not_ready : Virtq :=
  ⟨0, [0], fun _ => ⟨4, 0, 2, 0⟩, fun _ => true⟩

/-- A queue whose single chain head (index 5) is device-writable and linked
(NEXT and WRITE flags both set). -/
def vq_writable_next : Virtq :=
  ⟨1, [5], fun _ => ⟨4, 16, 3, 6⟩, fun _ => true⟩

/-- Memory whose request header at address 256 carries request type 2 (neither
IN, OUT, FLUSH nor GET_ID) and sector 0. -/
def mem_unknown_type : Nat → Nat := fun a => if a = 256 then 2 else 0

/-- A queue with one two-descriptor chain: head (header at 256) and writable
status tail (at 16). -/
def vq_unknown_type : Virtq :=
  ⟨1, [0], fun i => if i = 0 then ⟨256, 16, 1, 1⟩ else ⟨16, 1, 2, 0⟩, fun _ => true⟩

def state_unknown_type : SysState := ⟨mem_unknown_type, fun _ => 0, [], true⟩

/-- A FLUSH request node with chain head 10. -/
def req_flush_a : VirtioBlkReqNode := ⟨4, 0, 0, 10, [], 0, 0⟩

/-- A FLUSH request node with chain head 11. -/
def req_flush_b : VirtioBlkReqNode := ⟨4, 0, 0, 11, [], 0, 0⟩

/-- An OUT request node (sector 0, one 1-byte buffer at address 300, head 12). -/
def req_out_c : VirtioBlkReqNode := ⟨1, 0, 0, 12, [⟨300, 1⟩], 1, 1⟩

/-- State whose byte at 300 is 9 (the byte `req_out_c` would write to the
backing store). -/
def state_pending_out : SysState := ⟨fun a => if a = 300 then 9 else 0, fun _ => 0, [], true⟩

/-- A queue (no backlog needed) whose used-ring update succeeds only for the
first completion. -/
def vq_first_update_only : Virtq :=
  ⟨1, [], fun _ => ⟨0, 0, 0, 0⟩, fun n => decide (n = 0)⟩

/-- A queue whose used-ring updates always succeed and no backlog. -/
def vq_plain : Virtq := ⟨1, [], fun _ => ⟨0, 0, 0, 0⟩, fun _ => true⟩

/-- An IN request for the last sector (sector 31, one 512-byte buffer at 8192,
head 20): `31*512 + 512` equals the device capacity exactly. -/
def req_in_boundary : VirtioBlkReqNode := ⟨0, 0, 31, 20, [⟨8192, 512⟩], 512, 512⟩

/-- A FLUSH request node with chain head 21. -/
def req_flush_d : VirtioBlkReqNode := ⟨4, 0, 0, 21, [], 0, 0⟩

/-- State with an all-9 backing store (to observe that a failed `blk_read`
copies nothing and a failed `blk_write` overwrites nothing). -/
def state_store9 : SysState := ⟨fun _ => 0, fun _ => 9, [], true⟩

/-- Memory for the round-trip scenario at the device's last sector: an OUT
header `{type 1, sector 31}` at 256, an IN header `{type 0, sector 31}` at 512
(bytes 512..519 are zero, byte 520 holds the sector), a 512-byte write buffer
of 7s at 4096, and a zeroed 512-byte read buffer at 8192. -/
def mem_roundtrip_last : Nat → Nat := fun a =>
  if a = 256 then 1
  else if a = 264 then 31
  else if a = 520 then 31
  else if 4096 ≤ a ∧ a < 4608 then 7
  else 0

/-- Same layout with sector 0 in both headers (strictly in-bounds access). -/
def mem_roundtrip_first : Nat → Nat := fun a =>
  if a = 256 then 1
  else if 4096 ≤ a ∧ a < 4608 then 7
  else 0

/-- Descriptor table with two three-descriptor chains: an OUT chain at indices
0-2 (header 256, data 4096 read-only, status 16) and an IN chain at indices
3-5 (header 512, data 8192 device-writable, status 17). -/
def desc_roundtrip : Nat → VirtqDesc := fun i =>
  if i = 0 then ⟨256, 16, 1, 1⟩
  else if i = 1 then ⟨4096, 512, 1, 2⟩
  else if i = 2 then ⟨16, 1, 2, 0⟩
  else if i = 3 then ⟨512, 16, 1, 4⟩
  else if i = 4 then ⟨8192, 512, 3, 5⟩
  else ⟨17, 1, 2, 0⟩

/-- The round-trip queue: the OUT chain then the IN chain in the backlog. -/
def vq_roundtrip : Virtq := ⟨1, [0, 3], desc_roundtrip, fun _ => true⟩

def state_roundtrip_last : SysState := ⟨mem_roundtrip_last, fun _ => 0, [], true⟩

def state_roundtrip_first : SysState := ⟨mem_roundtrip_first, fun _ => 0, [], true⟩

/-- Queue used for the interior-descriptor direction-check witness:
descriptor 5 is an interior data descriptor (NEXT set, not device-writable). -/
def vq_direction : Virtq := ⟨1, [], fun _ => ⟨4096, 512, 1, 2⟩, fun _ => true⟩

/-- An IN request node mid-parse (head already consumed). -/
def node_in_parse : VirtioBlkReqNode := ⟨0, 0, 31, 9, [], 0, 0⟩

/-- Registry entry covering `[0x1000, 0x2000)` with the inert handler. -/
def entry_low : EmuDevEntry :=
  ⟨EmuDeviceType.EmuDeviceTVirtioBlk, 3, 4096, 4096, obedient_handler⟩

/-- Registry entry covering `[0x3000, 0x4000)` with the id-probing handler. -/
def entry_high : EmuDevEntry :=
  ⟨EmuDeviceType.EmuDeviceTVirtioNet, 7, 12288, 4096, probing_handler⟩

/-- A size-zero registry entry at base 0 (the intended range `[0, 0)` is
empty). -/
def entry_empty : EmuDevEntry :=
  ⟨EmuDeviceType.EmuDeviceTVirtioBlk, 3, 0, 0, probing_handler⟩

/-- A trapped access at address 0x3008, inside `entry_high`'s range. -/
def ctx_high : EmuContext := ⟨12296, 4, false, false, 10, 8⟩

/-- A trapped access at address 1234, outside every intended range used here. -/
def ctx_low : EmuContext := ⟨1234, 8, false, false, 0, 8⟩

/-! ## Helper lemmas -/

/-- The WRITE-flag mask of any flag word is 0 or 2. -/
theorem and_writeflag_cases (x : Nat) :
    x &&& VIRTQ_DESC_F_WRITE = 0 ∨ x &&& VIRTQ_DESC_F_WRITE = 2 := by
  have h : x &&& 2 = (x.testBit 1).toNat * 2 := by
    simpa using Nat.and_two_pow x 1
  cases hb : x.testBit 1 <;> simp [VIRTQ_DESC_F_WRITE, h, hb]

/-- The notify bracket only touches the notify flag. -/
theorem notify_bracket_used (s : SysState) (r : Bool) :
    (notify_bracket s r).used = s.used := by
  cases r <;> rfl

/-- Lemma: `in_range` applied the way the registry applies it (`size - 1` as wrapped
usize) decides containment in `[base, base + size)` whenever `size ≥ 1` and
the range does not wrap. -/
theorem in_range_iff (a base size : Nat) (h1 : 1 ≤ size) (h2 : base + size ≤ U64SZ) :
    in_range a base (u64sub size 1) = true ↔ base ≤ a ∧ a < base + size := by
  have hs : u64sub size 1 = size - 1 := by
    unfold u64sub U64SZ
    unfold U64SZ at h2
    omega
  have ha : u64add base (size - 1) = base + size - 1 := by
    unfold u64add U64SZ
    unfold U64SZ at h2
    omega
  rw [hs]
  unfold in_range
  rw [ha]
  simp only [decide_eq_true_eq]
  omega

/-- Negative form of `in_range_iff`. -/
theorem in_range_false_iff (a base size : Nat) (h1 : 1 ≤ size)
    (h2 : base + size ≤ U64SZ) :
    in_range a base (u64sub size 1) = false ↔ ¬(base ≤ a ∧ a < base + size) := by
  rw [← in_range_iff a base size h1 h2]
  cases in_range a base (u64sub size 1) <;> simp

/-- The chain walk mutates only host memory: a successful walk preserves the
used ring and the backing store, and an aborting walk returns the state it
was given. -/
theorem walk_chain_state (ipa2pa : Nat → Nat) (vq : Virtq) :
    ∀ fuel idx head node s,
      (∀ node' s', walk_chain ipa2pa vq fuel idx head node s = .done node' s' →
        s'.used = s.used ∧ s'.store = s.store) ∧
      (∀ s', walk_chain ipa2pa vq fuel idx head node s = .abort s' → s' = s) := by
  intro fuel
  induction fuel with
  | zero =>
    intro idx head node s
    constructor
    · intro node' s' h
      simp [walk_chain] at h
    · intro s' h
      simp [walk_chain] at h
  | succ fuel ih =>
    intro idx head node s
    constructor
    · intro node' s' h
      simp only [walk_chain] at h
      split at h
      · split at h
        · split at h
          · exact absurd h (by simp)
          · split at h
            · exact absurd h (by simp)
            · exact (ih _ _ _ _).1 _ _ h
        · split at h
          · exact absurd h (by simp)
          · split at h
            · exact absurd h (by simp)
            · exact (ih _ _ _ _).1 _ _ h
      · split at h
        · exact absurd h (by simp)
        · split at h
          · exact absurd h (by simp)
          · injection h with h1 h2
            subst h2
            exact ⟨rfl, rfl⟩
    · intro s' h
      simp only [walk_chain] at h
      split at h
      · split at h
        · split at h
          · injection h with h1
            exact h1.symm
          · split at h
            · injection h with h1
              exact h1.symm
            · exact (ih _ _ _ _).2 _ h
        · split at h
          · injection h with h1
            exact h1.symm
          · split at h
            · injection h with h1
              exact h1.symm
            · exact (ih _ _ _ _).2 _ h
      · split at h
        · injection h with h1
          exact h1.symm
        · split at h
          · injection h with h1
            exact h1.symm
          · exact absurd h (by simp)

/-- A chain whose head descriptor has both the NEXT and the WRITE flag is
rejected at once by the walk (or the walk runs out of fuel). -/
theorem walk_chain_bad_head (ipa2pa : Nat → Nat) (vq : Virtq) (idx : Nat)
    (node : VirtioBlkReqNode) (s : SysState)
    (h1 : (vq.desc idx).flags &&& VIRTQ_DESC_F_NEXT ≠ 0)
    (h2 : (vq.desc idx).flags &&& VIRTQ_DESC_F_WRITE ≠ 0) :
    ∀ fuel, walk_chain ipa2pa vq fuel idx true node s = .spin ∨
      walk_chain ipa2pa vq fuel idx true node s = .abort s := by
  intro fuel
  cases fuel with
  | zero => left; simp [walk_chain]
  | succ fuel => right; simp [walk_chain, h1, h2]

/-- If the backlog contains a chain head with both NEXT and WRITE flags, the
drain loop can only return `false`, and posts no completion while doing so. -/
theorem drain_loop_bad_head (ipa2pa idBytes : Nat → Nat) (vq : Virtq)
    (chainFuel bad : Nat)
    (h1 : (vq.desc bad).flags &&& VIRTQ_DESC_F_NEXT ≠ 0)
    (h2 : (vq.desc bad).flags &&& VIRTQ_DESC_F_WRITE ≠ 0) :
    ∀ heads s reqList b s', bad ∈ heads →
      drain_loop ipa2pa idBytes vq chainFuel heads s reqList = .ret b s' →
      b = false ∧ s'.used = s.used := by
  intro heads
  induction heads with
  | nil =>
    intro s reqList b s' hmem
    exact absurd hmem (List.not_mem_nil bad)
  | cons idx rest ih =>
    intro s reqList b s' hmem h
    simp only [drain_loop] at h
    split at h
    · exact absurd h (by simp)
    · next s'' hw =>
      injection h with hb hs
      subst hs
      refine ⟨hb.symm, ?_⟩
      have hba := (walk_chain_state ipa2pa vq chainFuel idx true _ _).2 s'' hw
      rw [hba, notify_bracket_used]
    · next node2 s'' hw =>
      by_cases hidx : idx = bad
      · subst hidx
        rcases walk_chain_bad_head ipa2pa vq idx
            { VirtioBlkReqNode.default with desc_chain_head_idx := idx }
            (notify_bracket s rest.isEmpty) h1 h2 chainFuel with hv | hv <;>
          rw [hv] at hw <;> exact absurd hw (by simp)
      · have hmem' : bad ∈ rest := by
          rcases List.mem_cons.mp hmem with hx | hx
          · exact absurd hx.symm hidx
          · exact hx
        have hr := ih s'' (reqList ++ [{ node2 with iov_total := node2.iov_sum_up }])
          b s' hmem' h
        refine ⟨hr.1, ?_⟩
        have hdone := (walk_chain_state ipa2pa vq chainFuel idx true _ _).1 node2 s'' hw
        rw [hr.2, hdone.1, notify_bracket_used]

/-! ## Claim theorems -/

/-- Claim C8: if the queue's `ready()` is 0 when `virtio_blk_notify_handler`
is invoked, the handler returns `false` with the state unchanged — no
available-ring entry popped, no status byte written, no backing-store I/O,
no used-ring completion posted. -/
theorem notify_handler_not_ready (ipa2pa idBytes : Nat → Nat) (vq : Virtq)
    (chainFuel : Nat) (s : SysState) (h : vq.ready = 0) :
    virtio_blk_notify_handler ipa2pa idBytes vq chainFuel s = .ret false s := by
  simp [virtio_blk_notify_handler, h]

/-- Witness for the not-ready claim at a concrete queue. -/
theorem notify_handler_not_ready_witness :
    virtio_blk_notify_handler plain_translate zeroBytes vq_not_ready 8 s0 = .ret false s0 :=
  notify_handler_not_ready plain_translate zeroBytes vq_not_ready 8 s0 rfl

/-- Claim C5: for an interior (non-head, non-tail, i.e. NEXT-flagged after the
head) descriptor, the walk of `virtio_blk_notify_handler` aborts with failure
when the writable flag mismatches the request direction — an IN (type 0)
request with a non-writable buffer, or an OUT (type 1) request with a
writable buffer — and on a direction match (IN/writable or OUT/read-only) it
contributes exactly one I/O-vector entry `{translated address, length}` and
moves to the linked descriptor. -/
theorem interior_desc_direction_check (ipa2pa : Nat → Nat) (vq : Virtq)
    (fuel idx : Nat) (node : VirtioBlkReqNode) (s : SysState)
    (hnext : (vq.desc idx).flags &&& VIRTQ_DESC_F_NEXT ≠ 0) :
    (node.req_type = VIRTIO_BLK_T_IN → (vq.desc idx).flags &&& VIRTQ_DESC_F_WRITE = 0 →
      walk_chain ipa2pa vq (fuel + 1) idx false node s = .abort s)
    ∧ (node.req_type = VIRTIO_BLK_T_OUT → (vq.desc idx).flags &&& VIRTQ_DESC_F_WRITE ≠ 0 →
      walk_chain ipa2pa vq (fuel + 1) idx false node s = .abort s)
    ∧ ((node.req_type = VIRTIO_BLK_T_IN ∧ (vq.desc idx).flags &&& VIRTQ_DESC_F_WRITE ≠ 0) ∨
        (node.req_type = VIRTIO_BLK_T_OUT ∧ (vq.desc idx).flags &&& VIRTQ_DESC_F_WRITE = 0) →
      ipa2pa (vq.desc idx).addr ≠ 0 →
      walk_chain ipa2pa vq (fuel + 1) idx false node s =
        walk_chain ipa2pa vq fuel (vq.desc idx).next false
          { node with
            iov_sum_up := u64add node.iov_sum_up (vq.desc idx).len,
            iov := node.iov ++ [⟨ipa2pa (vq.desc idx).addr, (vq.desc idx).len⟩] } s) := by
  refine ⟨?_, ?_, ?_⟩
  · intro h0 h2
    simp [walk_chain, hnext, h0, h2, VIRTIO_BLK_T_IN]
  · intro h1 h2
    rcases and_writeflag_cases (vq.desc idx).flags with hx | hx
    · exact absurd hx h2
    · simp [walk_chain, hnext, h1, hx, VIRTIO_BLK_T_OUT]
  · intro hmatch htrans
    have hne : ((vq.desc idx).flags &&& VIRTQ_DESC_F_WRITE) >>> 1 ≠ node.req_type := by
      rcases hmatch with ⟨h0, h2⟩ | ⟨h1, h2⟩
      · rcases and_writeflag_cases (vq.desc idx).flags with hx | hx
        · exact absurd hx h2
        · simp [hx, h0, VIRTIO_BLK_T_IN]
      · simp [h2, h1, VIRTIO_BLK_T_OUT]
    simp [walk_chain, hnext, hne, htrans]

/-- Witness for the direction check: an IN request whose interior descriptor
is not device-writable makes the walk abort. -/
theorem interior_desc_direction_check_witness :
    walk_chain plain_translate vq_direction 8 5 false node_in_parse s0 = .abort s0 :=
  (interior_desc_direction_check plain_translate vq_direction 7 5 node_in_parse s0
    (by decide)).1 rfl (by decide)

/-- Claim C4 (amended): for a notification whose backlog contains a chain
whose head descriptor is device-writable *and linked to a further descriptor*
(NEXT flag set), `virtio_blk_notify_handler` can never return success: any
boolean it returns is `false`, and at that point it has posted no used-ring
completion for any chain of the notification. (The unlinked single-descriptor
case is excluded: see the counterexample.) -/
theorem writable_multi_desc_head_aborts (ipa2pa idBytes : Nat → Nat) (vq : Virtq)
    (chainFuel : Nat) (s : SysState) (bad : Nat) (hmem : bad ∈ vq.avail)
    (h1 : (vq.desc bad).flags &&& VIRTQ_DESC_F_NEXT ≠ 0)
    (h2 : (vq.desc bad).flags &&& VIRTQ_DESC_F_WRITE ≠ 0)
    (b : Bool) (s' : SysState)
    (hret : virtio_blk_notify_handler ipa2pa idBytes vq chainFuel s = .ret b s') :
    b = false ∧ s'.used = s.used := by
  unfold virtio_blk_notify_handler at hret
  split at hret
  · injection hret with hb hs
    subst hs
    exact ⟨hb.symm, rfl⟩
  · exact drain_loop_bad_head ipa2pa idBytes vq chainFuel bad h1 h2 vq.avail s [] b s'
      hmem hret

/-- Witness for the amended writable-head claim at a concrete queue whose
only chain head has flags NEXT|WRITE. -/
theorem writable_multi_desc_head_aborts_witness :
    false = false ∧ s0.used = s0.used :=
  writable_multi_desc_head_aborts plain_translate zeroBytes vq_writable_next 8 s0 5
    (by decide) (by decide) (by decide) false s0 rfl

/-- Claim C4 counterexample: a notification whose single chain is one
device-writable descriptor with no NEXT link has a writable head, yet the
handler returns `true` and posts a completion (the writable-head check only
runs for linked heads; the lone descriptor is treated as the status byte of
an empty default request). -/
theorem writable_single_desc_head_accepted :
    (virtio_blk_notify_handler plain_translate zeroBytes vq_single_writable 8 s0).retb
      = some true
    ∧ (virtio_blk_notify_handler plain_translate zeroBytes vq_single_writable 8 s0).usedOf
      = [(0, 0)] := by
  constructor <;> rfl

/-- Claim C3 (code bug evaluation): a parsed request whose type is 2 (neither
IN, OUT, FLUSH nor GET_ID) drives the execution phase into its `panic!` arm
instead of posting a completion and returning a boolean; the aborting
behaviour of a failed `update_used_ring` (first completion accepted, second
refused: processing stops, the third request's backing-store write never
happens, result `false`) is also evaluated. -/
theorem process_requests_unknown_type_fatal :
    (virtio_blk_notify_handler plain_translate zeroBytes vq_unknown_type 8
        state_unknown_type).isFatal = true
    ∧ (process_blk_requests zeroBytes vq_first_update_only
        [req_flush_a, req_flush_b, req_out_c] state_pending_out).retb = some false
    ∧ (process_blk_requests zeroBytes vq_first_update_only
        [req_flush_a, req_flush_b, req_out_c] state_pending_out).usedOf = [(0, 10)]
    ∧ (process_blk_requests zeroBytes vq_first_update_only
        [req_flush_a, req_flush_b, req_out_c] state_pending_out).storeAt 0 = 0 := by
  refine ⟨rfl, rfl, rfl, rfl⟩

/-- Claim C1 (code bug evaluation): an OUT request for the last sector
(S = 31, L = 512, so S*512 + L = N*512 with N = 32 sectors) followed by an IN
request for the same sector and length. Both backing-store calls are refused
by the `>=` bounds check, so the IN request leaves the guest read buffer
unchanged (0) although the OUT buffer held 7s, while the IN completion still
reports length 512. -/
theorem blk_roundtrip_last_sector_rejected :
    SECTOR_BSIZE * 31 + 512 ≤ SECTOR_BSIZE * SECTORS_NUM
    ∧ mem_roundtrip_last 4096 = 7
    ∧ (virtio_blk_notify_handler plain_translate zeroBytes vq_roundtrip 8
        state_roundtrip_last).retb = some true
    ∧ (virtio_blk_notify_handler plain_translate zeroBytes vq_roundtrip 8
        state_roundtrip_last).usedOf = [(0, 0), (512, 3)]
    ∧ (virtio_blk_notify_handler plain_translate zeroBytes vq_roundtrip 8
        state_roundtrip_last).memAt 8192 = 0
    ∧ (virtio_blk_notify_handler plain_translate zeroBytes vq_roundtrip 8
        state_roundtrip_last).storeAt 15872 = 0 := by
  refine ⟨by decide, rfl, rfl, rfl, rfl, rfl⟩

/-- The same two-chain round trip strictly inside the device (sector 0):
the written bytes come back through the IN request and the completion length
is the requested length — the round-trip law holds away from the boundary. -/
theorem blk_roundtrip_in_bounds :
    (virtio_blk_notify_handler plain_translate zeroBytes vq_roundtrip 8
        state_roundtrip_first).retb = some true
    ∧ (virtio_blk_notify_handler plain_translate zeroBytes vq_roundtrip 8
        state_roundtrip_first).usedOf = [(0, 0), (512, 3)]
    ∧ (virtio_blk_notify_handler plain_translate zeroBytes vq_roundtrip 8
        state_roundtrip_first).memAt 8192 = 7
    ∧ (virtio_blk_notify_handler plain_translate zeroBytes vq_roundtrip 8
        state_roundtrip_first).memAt 8703 = 7
    ∧ (virtio_blk_notify_handler plain_translate zeroBytes vq_roundtrip 8
        state_roundtrip_first).storeAt 0 = 7 := by
  refine ⟨rfl, rfl, rfl, rfl, rfl⟩

/-- Claim C2 (code bug evaluation): `blk_read`/`blk_write` refuse the access
with `offset + count` equal to the capacity `SECTOR_BSIZE * SECTORS_NUM`
(= 16384) and copy nothing, although the access does not exceed the device;
a strictly smaller access succeeds and copies; and a per-item failure does
not abort the batch — the boundary IN request still gets its completion and
the following FLUSH is still executed. -/
theorem blk_backing_bounds_off_by_one :
    15872 + 512 ≤ SECTOR_BSIZE * SECTORS_NUM
    ∧ (blk_read 15872 512 8192 state_store9).1 = false
    ∧ (blk_read 15872 512 8192 state_store9).2.mem 8192 = 0
    ∧ (blk_write 15872 512 8192 state_store9).1 = false
    ∧ (blk_write 15872 512 8192 state_store9).2.store 15872 = 9
    ∧ (blk_read 15360 512 8192 state_store9).1 = true
    ∧ (blk_read 15360 512 8192 state_store9).2.mem 8192 = 9
    ∧ (process_blk_requests zeroBytes vq_plain [req_in_boundary, req_flush_d]
        state_store9).retb = some true
    ∧ (process_blk_requests zeroBytes vq_plain [req_in_boundary, req_flush_d]
        state_store9).usedOf = [(512, 20), (0, 21)] := by
  refine ⟨by decide, rfl, rfl, rfl, rfl, rfl, rfl, rfl, rfl⟩

/-- The first registered entry whose range contains the faulting address is
dispatched to, regardless of what follows it. -/
theorem emu_handler_first_match (ctx : EmuContext) (d : EmuDevEntry)
    (post : List EmuDevEntry) (hd1 : 1 ≤ d.size) (hd2 : d.ipa + d.size ≤ U64SZ)
    (hlo : d.ipa ≤ ctx.address) (hhi : ctx.address < d.ipa + d.size) :
    ∀ pre : List EmuDevEntry,
      (∀ e ∈ pre, 1 ≤ e.size ∧ e.ipa + e.size ≤ U64SZ) →
      (∀ e ∈ pre, ¬(e.ipa ≤ ctx.address ∧ ctx.address < e.ipa + e.size)) →
      emu_handler ctx (pre ++ d :: post) = d.handler d.id ctx := by
  intro pre
  induction pre with
  | nil =>
    intro _ _
    simp only [List.nil_append, emu_handler]
    rw [if_pos ((in_range_iff ctx.address d.ipa d.size hd1 hd2).mpr ⟨hlo, hhi⟩)]
  | cons e pre' ih =>
    intro hb hm
    have he := hb e (List.mem_cons_self e pre')
    have hfalse := (in_range_false_iff ctx.address e.ipa e.size he.1 he.2).mpr
      (hm e (List.mem_cons_self e pre'))
    simp only [List.cons_append, emu_handler]
    rw [if_neg (by simp [hfalse])]
    exact ih (fun x hx => hb x (List.mem_cons_of_mem _ hx))
      (fun x hx => hm x (List.mem_cons_of_mem _ hx))

/-- If no registered range contains the faulting address, the scan invokes
nothing and yields `false`. -/
theorem emu_handler_no_match (ctx : EmuContext) :
    ∀ devs : List EmuDevEntry,
      (∀ e ∈ devs, 1 ≤ e.size ∧ e.ipa + e.size ≤ U64SZ) →
      (∀ e ∈ devs, ¬(e.ipa ≤ ctx.address ∧ ctx.address < e.ipa + e.size)) →
      emu_handler ctx devs = false := by
  intro devs
  induction devs with
  | nil => intro _ _; rfl
  | cons e rest ih =>
    intro hb hm
    have he := hb e (List.mem_cons_self e rest)
    have hfalse := (in_range_false_iff ctx.address e.ipa e.size he.1 he.2).mpr
      (hm e (List.mem_cons_self e rest))
    simp only [emu_handler]
    rw [if_neg (by simp [hfalse])]
    exact ih (fun x hx => hb x (List.mem_cons_of_mem _ hx))
      (fun x hx => hm x (List.mem_cons_of_mem _ hx))

/-- Claim C7: `emu_handler` scans the registered entries in order; the first
entry whose range `[ipa, ipa+size)` contains `ctx.address` has its handler
invoked with that entry's device id and the context, and that result is the
handler's result (scanning stops there, so no later entry's handler is
consulted); when no registered range contains the address, no handler is
invoked and the result is `false`. Entry sizes are at least 1 and ranges do
not wrap. -/
theorem emu_handler_dispatch_spec (ctx : EmuContext)
    (pre post devs : List EmuDevEntry) (d : EmuDevEntry)
    (hpre : ∀ e ∈ pre, 1 ≤ e.size ∧ e.ipa + e.size ≤ U64SZ)
    (hd : 1 ≤ d.size ∧ d.ipa + d.size ≤ U64SZ)
    (hdevs : ∀ e ∈ devs, 1 ≤ e.size ∧ e.ipa + e.size ≤ U64SZ) :
    ((∀ e ∈ pre, ¬(e.ipa ≤ ctx.address ∧ ctx.address < e.ipa + e.size)) →
      d.ipa ≤ ctx.address → ctx.address < d.ipa + d.size →
      emu_handler ctx (pre ++ d :: post) = d.handler d.id ctx)
    ∧ ((∀ e ∈ devs, ¬(e.ipa ≤ ctx.address ∧ ctx.address < e.ipa + e.size)) →
      emu_handler ctx devs = false) :=
  ⟨fun hm hlo hhi => emu_handler_first_match ctx d post hd.1 hd.2 hlo hhi pre hpre hm,
   fun hm => emu_handler_no_match ctx devs hdevs hm⟩

/-- Witness for the dispatch claim: an address inside the second entry's
range reaches exactly that entry's handler with its id; an address outside
both ranges yields `false`. -/
theorem emu_handler_dispatch_spec_witness :
    emu_handler ctx_high [entry_low, entry_high] = entry_high.handler entry_high.id ctx_high
    ∧ emu_handler ctx_low [entry_low, entry_high] = false :=
  ⟨(emu_handler_dispatch_spec ctx_high [entry_low] [] [] entry_high
      (by decide) (by decide) (by decide)).1 (by decide) (by decide) (by decide),
   (emu_handler_dispatch_spec ctx_low [] [] [entry_low, entry_high] entry_low
      (by decide) (by decide) (by decide)).2 (by decide)⟩

/-- Claim C6: `emu_register_dev` appends the new entry when the table holds
fewer than 32 entries and `[address, address+size)` intersects no registered
range; it fails fatally (`none`, the panic) when the table already holds 32
entries or when the new range overlaps an existing one in either direction;
hence registering exactly 32 pairwise non-overlapping ranges succeeds and a
33rd registration fails. Sizes are at least 1 and ranges do not wrap. -/
theorem emu_register_dev_spec (t : EmuDeviceType) (did addr size : Nat)
    (h : Nat → EmuContext → Bool) (devs : List EmuDevEntry)
    (hsz : 1 ≤ size) (hbnd : addr + size ≤ U64SZ)
    (hdevs : ∀ d ∈ devs, 1 ≤ d.size ∧ d.ipa + d.size ≤ U64SZ) :
    (devs.length < EMU_DEV_NUM_MAX →
      (∀ d ∈ devs, addr + size ≤ d.ipa ∨ d.ipa + d.size ≤ addr) →
      emu_register_dev t did addr size h devs
        = some (devs ++ [⟨t, did, addr, size, h⟩]))
    ∧ (EMU_DEV_NUM_MAX ≤ devs.length → emu_register_dev t did addr size h devs = none)
    ∧ ((∃ d ∈ devs, addr < d.ipa + d.size ∧ d.ipa < addr + size) →
      emu_register_dev t did addr size h devs = none)
    ∧ (regChain 32).isSome = true
    ∧ (regChain 33).isNone = true := by
  refine ⟨?_, ?_, ?_, by decide, by decide⟩
  · intro hlen hdisj
    have hany : devs.any (fun d =>
        in_range addr d.ipa (u64sub d.size 1) || in_range d.ipa addr (u64sub size 1))
        = false := by
      rw [List.any_eq_false]
      intro d hd
      have hb := hdevs d hd
      have hdis := hdisj d hd
      have hf1 : in_range addr d.ipa (u64sub d.size 1) = false :=
        (in_range_false_iff addr d.ipa d.size hb.1 hb.2).mpr (by omega)
      have hf2 : in_range d.ipa addr (u64sub size 1) = false :=
        (in_range_false_iff d.ipa addr size hsz hbnd).mpr (by omega)
      simp [hf1, hf2]
    unfold emu_register_dev
    rw [if_neg (by omega), if_neg (by simp [hany])]
  · intro hge
    unfold emu_register_dev
    rw [if_pos hge]
  · intro hover
    obtain ⟨d, hd, hint⟩ := hover
    by_cases hlen : EMU_DEV_NUM_MAX ≤ devs.length
    · unfold emu_register_dev
      rw [if_pos hlen]
    · have hany : devs.any (fun d =>
          in_range addr d.ipa (u64sub d.size 1) || in_range d.ipa addr (u64sub size 1))
          = true := by
        rw [List.any_eq_true]
        refine ⟨d, hd, ?_⟩
        by_cases hc : d.ipa ≤ addr
        · have ht : in_range addr d.ipa (u64sub d.size 1) = true :=
            (in_range_iff addr d.ipa d.size (hdevs d hd).1 (hdevs d hd).2).mpr
              ⟨hc, hint.1⟩
          simp [ht]
        · have ht : in_range d.ipa addr (u64sub size 1) = true :=
            (in_range_iff d.ipa addr size hsz hbnd).mpr ⟨by omega, hint.2⟩
          simp [ht]
      unfold emu_register_dev
      rw [if_neg hlen, if_pos (by simp [hany])]

/-- Witness for the registration claim: a disjoint second range is appended
behind the first. -/
theorem emu_register_dev_spec_witness :
    emu_register_dev EmuDeviceType.EmuDeviceTVirtioNet 7 12288 4096 probing_handler
      [entry_low] = some [entry_low, entry_high] :=
  (emu_register_dev_spec EmuDeviceType.EmuDeviceTVirtioNet 7 12288 4096
    probing_handler [entry_low] (by decide) (by decide) (by decide)).1
    (by decide) (by decide)

/-- Claim C10: the registry's range checks compute `size - 1` on an unsigned
integer, so they implement the intended `[base, base+size)` containment only
when every size is at least 1: for `size ≥ 1` the subtraction is exact, while
for `size = 0` it underflows to `2^64 - 1`, and the checks are then not
evaluated on the intended empty range — a registered size-0 entry at base 0
captures every address in `emu_handler`, and blocks `emu_register_dev` for a
range disjoint from the (empty) one it declares. -/
theorem registry_size_zero_underflow :
    (∀ size, 1 ≤ size → size ≤ U64SZ → u64sub size 1 = size - 1)
    ∧ u64sub 0 1 = U64SZ - 1
    ∧ (∀ ctx : EmuContext, ctx.address < U64SZ →
        emu_handler ctx [entry_empty] = probing_handler 3 ctx)
    ∧ (emu_register_dev EmuDeviceType.EmuDeviceTVirtioBlk 1 4096 4096
        obedient_handler [entry_empty]).isNone = true := by
  refine ⟨?_, by decide, ?_, by decide⟩
  · intro size h1 h2
    unfold U64SZ at h2
    unfold u64sub U64SZ
    omega
  · intro ctx hlt
    unfold U64SZ at hlt
    have hin : in_range ctx.address entry_empty.ipa (u64sub entry_empty.size 1) = true := by
      unfold in_range u64add u64sub entry_empty U64SZ
      simp only [decide_eq_true_eq]
      omega
    simp only [emu_handler]
    rw [if_pos hin]
    rfl

/-- Witness for the size-zero underflow claim. -/
theorem registry_size_zero_underflow_witness :
    u64sub 5 1 = 4 ∧ emu_handler ctx_low [entry_empty] = probing_handler 3 ctx_low :=
  ⟨registry_size_zero_underflow.1 5 (by decide) (by decide),
   registry_size_zero_underflow.2.2.1 ctx_low (by decide)⟩

/-- Claim C9 (amended): `VCpu::create` zero-initializes the Register/State
Layout, then stores into the two guest-side status slots the values the
hardware `hstatus`/`sstatus` CSRs held at the call, with the SPV bit
respectively the SPP (supervisor) bit set on top — so for every hardware
value, all guest general-purpose registers are zero, the guest hstatus has
SPV set, the guest sstatus has SPP equal to Supervisor, and every other
section of the layout is zero; the other hardware status bits are inherited,
not cleared. -/
theorem vcpu_create_guest_state (hwh hws e sp hg ks th g : Nat) :
    (VCpu.create hwh hws e sp hg ks th g).regs.guest_regs.hstatus
      = hwh ||| (1 <<< HSTATUS_SPV_BIT)
    ∧ (VCpu.create hwh hws e sp hg ks th g).regs.guest_regs.sstatus
      = hws ||| (1 <<< SSTATUS_SPP_BIT)
    ∧ Nat.testBit (VCpu.create hwh hws e sp hg ks th g).regs.guest_regs.hstatus
        HSTATUS_SPV_BIT = true
    ∧ Nat.testBit (VCpu.create hwh hws e sp hg ks th g).regs.guest_regs.sstatus
        SSTATUS_SPP_BIT = true
    ∧ (∀ i, (VCpu.create hwh hws e sp hg ks th g).regs.guest_regs.gprs i = 0)
    ∧ (VCpu.create hwh hws e sp hg ks th g).regs.guest_regs.scounteren = 0
    ∧ (VCpu.create hwh hws e sp hg ks th g).regs.guest_regs.sepc = 0
    ∧ (VCpu.create hwh hws e sp hg ks th g).regs.hyp_regs = HypervisorCpuState.default
    ∧ (VCpu.create hwh hws e sp hg ks th g).regs.vs_csrs = GuestVsCsrs.default
    ∧ (VCpu.create hwh hws e sp hg ks th g).regs.virtual_hs_csrs
      = GuestVirtualHsCsrs.default
    ∧ (VCpu.create hwh hws e sp hg ks th g).regs.trap_csrs = VmCpuTrapState.default := by
  refine ⟨rfl, rfl, ?_, ?_, fun i => rfl, rfl, rfl, rfl, rfl, rfl, rfl⟩
  · show Nat.testBit (hwh ||| (1 <<< HSTATUS_SPV_BIT)) HSTATUS_SPV_BIT = true
    rw [Nat.testBit_lor]
    have hb : Nat.testBit (1 <<< HSTATUS_SPV_BIT) HSTATUS_SPV_BIT = true := by decide
    rw [hb, Bool.or_true]
  · show Nat.testBit (hws ||| (1 <<< SSTATUS_SPP_BIT)) SSTATUS_SPP_BIT = true
    rw [Nat.testBit_lor]
    have hb : Nat.testBit (1 <<< SSTATUS_SPP_BIT) SSTATUS_SPP_BIT = true := by decide
    rw [hb, Bool.or_true]

/-- Witness instantiating the creation theorem at zero hardware CSRs. -/
theorem vcpu_create_guest_state_witness :
    (VCpu.create 0 0 0 0 0 0 0 0).regs.guest_regs.hstatus = 0 ||| (1 <<< HSTATUS_SPV_BIT)
    ∧ Nat.testBit (VCpu.create 0 0 0 0 0 0 0 0).regs.guest_regs.sstatus
        SSTATUS_SPP_BIT = true :=
  ⟨(vcpu_create_guest_state 0 0 0 0 0 0 0 0).1,
   (vcpu_create_guest_state 0 0 0 0 0 0 0 0).2.2.2.1⟩

/-- Claim C9 counterexample: when the hardware hstatus holds any further bit
(here bit 5, value 32), the guest hstatus of the created vCPU is not the
zeroed word with only the SPV bit set: the claim's "initializes the layout
to zero and then sets exactly two guest-side status bits" does not hold of
the stored value. -/
theorem vcpu_create_inherits_hw_bits :
    (VCpu.create 32 0 0 0 0 0 0 0).regs.guest_regs.hstatus ≠ 1 <<< HSTATUS_SPV_BIT := by
  decide
